import Mathlib

/-!
Shallow embedding of the LLM-Bridge MCP server (src/index.ts): preset table,
config resolution, provider request construction, Gemini conversation
translation, response normalization and the dispatcher error envelope.
Numbers that the code treats as JS numbers are modelled as rationals; JS
`undefined` is modelled with `Option`; JS string truthiness (`if (s)`) is
modelled explicitly.
-/

set_option maxRecDepth 16384

namespace LLMBridge

/-- Mirror of `interface PresetConfig` (src/index.ts lines 133-139). -/
structure PresetConfig where
  provider : String
  model : String
  max_tokens : ℚ
  temperature : ℚ
  description : String
deriving Repr, DecidableEq

/-- Mirror of `builtInPresets` (src/index.ts lines 144-159). -/
def builtInPresets : List (String × PresetConfig) :=
  [("general",
    { provider := "openrouter"
      model := "deepseek/deepseek-chat-v3.1:free"
      max_tokens := 8192
      temperature := 7/10
      description := "Balanced settings for general use" }),
   ("coding",
    { provider := "openrouter"
      model := "deepseek/deepseek-chat-v3.1:free"
      max_tokens := 8192
      temperature := 1/10
      description := "Optimized for programming tasks with high token limit and low temperature" })]

/-- Lookup in `allPresets = \x7b ...builtInPresets, ...customPresets \x7d`
(src/index.ts line 193): custom entries shadow built-in ones of the same name. -/
def mergedLookup (custom : List (String × PresetConfig)) (name : String) :
    Option PresetConfig :=
  match custom.lookup name with
  | some c => some c
  | none => builtInPresets.lookup name

/-- The built-in `general` preset record. -/
def builtinGeneral : PresetConfig :=
  { provider := "openrouter"
    model := "deepseek/deepseek-chat-v3.1:free"
    max_tokens := 8192
    temperature := 7/10
    description := "Balanced settings for general use" }

/-- Outcome of startup preset selection (src/index.ts lines 195-202):
the final preset name, the active preset record, and whether the
not-found warning was printed to the diagnostic channel (stderr). -/
structure StartupSelection where
  selectedPreset : String
  activePreset : PresetConfig
  warned : Bool
deriving Repr, DecidableEq

/-- Mirror of the startup validation `if (!allPresets[selectedPreset]) \x7b ... \x7d`
followed by `const activePreset = allPresets[selectedPreset]`
(src/index.ts lines 196-202).  When the requested name is absent the code
warns on stderr and re-reads the table at "general"; `getD builtinGeneral`
is only a totality device — `mergedLookup custom "general"` is always
populated (see the C6 theorem). -/
def selectStartupPreset (custom : List (String × PresetConfig))
    (requested : String) : StartupSelection :=
  match mergedLookup custom requested with
  | some p => ⟨requested, p, false⟩
  | none => ⟨"general", (mergedLookup custom "general").getD builtinGeneral, true⟩

/-- Mirror of `mcpConfig.defaults` (src/index.ts lines 209-228), derived from
the active preset. -/
structure McpDefaults where
  openrouterModel : String
  geminiModel : String
  max_tokens : ℚ
  temperature : ℚ
  conversationProvider : String
deriving Repr, DecidableEq

/-- Build `mcpConfig.defaults` from the active preset
(src/index.ts lines 209-228). -/
def mkMcpDefaults (active : PresetConfig) : McpDefaults :=
  { openrouterModel :=
      if active.provider = "openrouter" then active.model
      else "deepseek/deepseek-chat-v3.1:free"
    geminiModel :=
      if active.provider = "gemini" then active.model else "gemini-2.0-flash-exp"
    max_tokens := active.max_tokens
    temperature := active.temperature
    conversationProvider := active.provider }

/-- JS truthiness of a possibly-undefined string: `undefined` and `""` are
falsy, every other string truthy. -/
def jsTruthyStr (o : Option String) : Bool :=
  match o with
  | some s => s ≠ ""
  | none => false

/-- JS `x || d` on a possibly-undefined string. -/
def jsOrStr (o : Option String) (d : String) : String :=
  match o with
  | some s => if s ≠ "" then s else d
  | none => d

/-- JS `x || d` on a possibly-undefined number (`0` is falsy; `NaN` is not
modelled). -/
def jsOrNum (o : Option ℚ) (d : ℚ) : ℚ :=
  match o with
  | some v => if v ≠ 0 then v else d
  | none => d

/-- The effective numeric pair a handler sends upstream. -/
structure CallNumerics where
  max_tokens : ℚ
  temperature : ℚ
deriving Repr, DecidableEq

/-- Mirror of the per-call preset application shared verbatim by all three
handlers (src/index.ts lines 425-431, 500-506, 584-590):
`if (preset && allPresets[preset]) \x7b finalMaxTokens = allPresets[preset].max_tokens || max_tokens; ... \x7d`.
`mt`/`t` are the caller's explicit values after destructuring defaults. -/
def applyPreset (custom : List (String × PresetConfig)) (preset : Option String)
    (mt t : ℚ) : CallNumerics :=
  match preset with
  | none => ⟨mt, t⟩
  | some p =>
    if p ≠ "" then
      match mergedLookup custom p with
      | some cfg =>
        ⟨if cfg.max_tokens ≠ 0 then cfg.max_tokens else mt,
         if cfg.temperature ≠ 0 then cfg.temperature else t⟩
      | none => ⟨mt, t⟩
    else ⟨mt, t⟩

/-- One `\x7btype, text\x7d` block of the MCP response envelope. -/
structure TextBlock where
  type : String
  text : String
deriving Repr, DecidableEq

/-- The fixed MCP response envelope: a `content` array of text blocks. -/
structure ToolResponse where
  content : List TextBlock
deriving Repr, DecidableEq

/-- What an awaited handler did, as seen by the dispatcher's try/catch. -/
inductive HandlerOutcome where
  | ok (r : ToolResponse)
  | thrown (msg : String)
deriving Repr, DecidableEq

/-- The catch block of the CallTool handler (src/index.ts lines 402-411). -/
def errorEnvelope (m : String) : ToolResponse :=
  ⟨[⟨"text", "Error: " ++ m⟩]⟩

/-- Mirror of the dispatcher switch plus its surrounding try/catch
(src/index.ts lines 388-412), parametrized by what each awaited handler
would do for this call. -/
def dispatch (name : String)
    (openrouterOutcome geminiOutcome conversationOutcome : HandlerOutcome) :
    ToolResponse :=
  let attempt : HandlerOutcome :=
    if name = "ask_openrouter_llm" then openrouterOutcome
    else if name = "ask_gemini_llm" then geminiOutcome
    else if name = "conversation_with_llm" then conversationOutcome
    else .thrown ("Unknown tool: " ++ name)
  match attempt with
  | .ok r => r
  | .thrown m => errorEnvelope m

/-- Mirror of `ConversationMessage` (src/types.ts): role is one of
"user" / "assistant" / "system" at the schema level, a plain string here. -/
structure ConversationMessage where
  role : String
  content : String
deriving Repr, DecidableEq

/-- One `\x7btext\x7d` part of a Gemini content entry. -/
structure GeminiPart where
  text : String
deriving Repr, DecidableEq

/-- One `\x7brole, parts\x7d` entry of a Gemini multi-turn `contents` array. -/
structure GeminiContent where
  role : String
  parts : List GeminiPart
deriving Repr, DecidableEq

/-- Mirror of the Gemini conversation translation (src/index.ts lines 659-665):
filter out system turns, remap assistant to model, everything else to user. -/
def toGeminiContents (msgs : List ConversationMessage) : List GeminiContent :=
  (msgs.filter (fun m => m.role ≠ "system")).map
    (fun m =>
      { role := if m.role = "assistant" then "model" else "user"
        parts := [⟨m.content⟩] })

/-- The OpenRouter wire body (src/index.ts lines 455-462 and 609-616).
Its `messages` are the same plain `\x7brole, content\x7d` objects as
`ConversationMessage`. -/
structure OpenRouterBody where
  model : String
  messages : List ConversationMessage
  max_tokens : ℚ
  temperature : ℚ
deriving Repr, DecidableEq

/-- A roleless `\x7bparts\x7d` entry, as used by the single-prompt Gemini body. -/
structure GeminiPromptContent where
  parts : List GeminiPart
deriving Repr, DecidableEq

/-- The single-prompt Gemini wire body plus the model placed in the URL
(src/index.ts lines 529-545). -/
structure GeminiPromptBody where
  model : String
  contents : List GeminiPromptContent
  maxOutputTokens : ℚ
  temperature : ℚ
deriving Repr, DecidableEq

/-- The multi-turn Gemini wire body plus the model placed in the URL
(src/index.ts lines 667-675). -/
structure GeminiConvBody where
  model : String
  contents : List GeminiContent
  maxOutputTokens : ℚ
  temperature : ℚ
deriving Repr, DecidableEq

/-- What a handler does before any network traffic: return an early response
(no HTTPS request), issue exactly one HTTPS request with body `b`, or throw
to the dispatcher's catch. -/
inductive PreNetwork (β : Type) where
  | respond (r : ToolResponse)
  | request (b : β)
  | throw (msg : String)
deriving Repr, DecidableEq

/-- The two credentials read from the process environment per call. -/
structure Env where
  OPENROUTER_API_KEY : Option String
  GEMINI_API_KEY : Option String
deriving Repr, DecidableEq

/-- `JSON.stringify(\x7berror, suggestion, example\x7d, null, 2)` of the
OpenRouter missing-key payload (src/index.ts lines 439-443). -/
def openrouterKeyErrText : String :=
  "\x7b\n  \"error\": \"OPENROUTER_API_KEY environment variable is required\",\n  \"suggestion\": \"Please set your OpenRouter API key in the .env file or system environment variables\",\n  \"example\": \"OPENROUTER_API_KEY=your_api_key_here\"\n\x7d"

/-- `JSON.stringify(...)` of the Gemini missing-key payload
(src/index.ts lines 514-518). -/
def geminiKeyErrText : String :=
  "\x7b\n  \"error\": \"GEMINI_API_KEY environment variable is required\",\n  \"suggestion\": \"Please set your Gemini API key in the .env file or system environment variables\",\n  \"example\": \"GEMINI_API_KEY=your_api_key_here\"\n\x7d"

/-- `JSON.stringify(...)` of the conversation-path OpenRouter missing-key
payload (src/index.ts lines 599-603). -/
def convORKeyErrText : String :=
  "\x7b\n  \"error\": \"OPENROUTER_API_KEY environment variable is required for OpenRouter conversations\",\n  \"suggestion\": \"Please set your OpenRouter API key in the .env file or system environment variables\",\n  \"example\": \"OPENROUTER_API_KEY=your_api_key_here\"\n\x7d"

/-- `JSON.stringify(...)` of the conversation-path Gemini missing-key payload
(src/index.ts lines 649-653). -/
def convGemKeyErrText : String :=
  "\x7b\n  \"error\": \"GEMINI_API_KEY environment variable is required for Gemini conversations\",\n  \"suggestion\": \"Please set your Gemini API key in the .env file or system environment variables\",\n  \"example\": \"GEMINI_API_KEY=your_api_key_here\"\n\x7d"

/-- Arguments of `ask_openrouter_llm` / `ask_gemini_llm`; absent fields are
`none` (JS `undefined`, triggering destructuring defaults). -/
structure PromptArgs where
  prompt : String
  model : Option String
  max_tokens : Option ℚ
  temperature : Option ℚ
  system_prompt : Option String
  preset : Option String
deriving Repr, DecidableEq

/-- Arguments of `conversation_with_llm`. -/
structure ConversationArgs where
  messages : List ConversationMessage
  provider : Option String
  model : Option String
  max_tokens : Option ℚ
  temperature : Option ℚ
  preset : Option String
deriving Repr, DecidableEq

/-- Pre-network phase of `handleOpenRouterRequest` (src/index.ts lines
415-471): destructuring defaults, per-call preset application, credential
check, message construction, request body. -/
def handleOpenRouterRequestPre (d : McpDefaults)
    (custom : List (String × PresetConfig)) (env : Env) (args : PromptArgs) :
    PreNetwork OpenRouterBody :=
  let model := args.model.getD d.openrouterModel
  let mt := args.max_tokens.getD d.max_tokens
  let t := args.temperature.getD d.temperature
  let fin := applyPreset custom args.preset mt t
  if jsTruthyStr env.OPENROUTER_API_KEY then
    let messages :=
      (if jsTruthyStr args.system_prompt then
        [ConversationMessage.mk "system" (args.system_prompt.getD "")]
      else []) ++ [ConversationMessage.mk "user" args.prompt]
    .request ⟨model, messages, fin.max_tokens, fin.temperature⟩
  else
    .respond ⟨[⟨"text", openrouterKeyErrText⟩]⟩

/-- Pre-network phase of `handleGeminiRequest` (src/index.ts lines 490-551):
destructuring defaults, preset application, credential check, system-prompt
concatenation, request body. -/
def handleGeminiRequestPre (d : McpDefaults)
    (custom : List (String × PresetConfig)) (env : Env) (args : PromptArgs) :
    PreNetwork GeminiPromptBody :=
  let model := args.model.getD d.geminiModel
  let mt := args.max_tokens.getD d.max_tokens
  let t := args.temperature.getD d.temperature
  let fin := applyPreset custom args.preset mt t
  if jsTruthyStr env.GEMINI_API_KEY then
    let fullPrompt :=
      if jsTruthyStr args.system_prompt then
        args.system_prompt.getD "" ++ "\n\nUser: " ++ args.prompt
      else args.prompt
    .request ⟨model, [⟨[⟨fullPrompt⟩]⟩], fin.max_tokens, fin.temperature⟩
  else
    .respond ⟨[⟨"text", geminiKeyErrText⟩]⟩

/-- The body a conversation call would send: one of the two provider shapes. -/
inductive ConvBody where
  | openrouter (b : OpenRouterBody)
  | gemini (b : GeminiConvBody)
deriving Repr, DecidableEq

/-- Pre-network phase of `handleConversationRequest` (src/index.ts lines
574-705): provider branch, credential checks, Gemini turn translation,
unsupported-provider throw. -/
def handleConversationRequestPre (d : McpDefaults)
    (custom : List (String × PresetConfig)) (env : Env)
    (args : ConversationArgs) : PreNetwork ConvBody :=
  let provider := args.provider.getD d.conversationProvider
  let mt := args.max_tokens.getD d.max_tokens
  let t := args.temperature.getD d.temperature
  let fin := applyPreset custom args.preset mt t
  if provider = "openrouter" then
    if jsTruthyStr env.OPENROUTER_API_KEY then
      .request (.openrouter
        ⟨jsOrStr args.model d.openrouterModel, args.messages,
         fin.max_tokens, fin.temperature⟩)
    else .respond ⟨[⟨"text", convORKeyErrText⟩]⟩
  else if provider = "gemini" then
    if jsTruthyStr env.GEMINI_API_KEY then
      .request (.gemini
        ⟨jsOrStr args.model d.geminiModel, toGeminiContents args.messages,
         fin.max_tokens, fin.temperature⟩)
    else .respond ⟨[⟨"text", convGemKeyErrText⟩]⟩
  else .throw ("Unsupported provider: " ++ provider)

/-- The `usageMetadata` object of a Gemini upstream payload; each count may
be absent. -/
structure UsageMetadata where
  promptTokenCount : Option ℚ
  candidatesTokenCount : Option ℚ
  totalTokenCount : Option ℚ
deriving Repr, DecidableEq

/-- The canonical usage record of `LLMResponse`. -/
structure Usage where
  prompt_tokens : ℚ
  completion_tokens : ℚ
  total_tokens : ℚ
deriving Repr, DecidableEq

/-- Mirror of `interface LLMResponse` (src/index.ts lines 231-240). -/
structure LLMResponse where
  content : String
  model : String
  provider : String
  usage : Option Usage
deriving Repr, DecidableEq

/-- The part of a Gemini upstream payload the parser reads: the first
candidate's first part's text, and the optional `usageMetadata`. -/
structure GeminiUpstream where
  text : String
  usageMetadata : Option UsageMetadata
deriving Repr, DecidableEq

/-- `response.data.usageMetadata?.promptTokenCount || 0` and friends
(src/index.ts lines 557-561 and 687-691). -/
def synthesizeGeminiUsage (meta : Option UsageMetadata) : Usage :=
  { prompt_tokens := jsOrNum (meta.bind (fun m => m.promptTokenCount)) 0
    completion_tokens := jsOrNum (meta.bind (fun m => m.candidatesTokenCount)) 0
    total_tokens := jsOrNum (meta.bind (fun m => m.totalTokenCount)) 0 }

/-- Result construction of `handleGeminiRequest` (src/index.ts lines
553-562). -/
def handleGeminiRequestParse (model : String) (up : GeminiUpstream) :
    LLMResponse :=
  { content := up.text
    model := model
    provider := "gemini"
    usage := some (synthesizeGeminiUsage up.usageMetadata) }

/-- Result construction of the Gemini branch of `handleConversationRequest`
(src/index.ts lines 683-692); `modelArg` is the raw `model` argument,
defaulted with `||` as in line 685. -/
def handleConversationGeminiParse (d : McpDefaults) (modelArg : Option String)
    (up : GeminiUpstream) : LLMResponse :=
  { content := up.text
    model := jsOrStr modelArg d.geminiModel
    provider := "gemini"
    usage := some (synthesizeGeminiUsage up.usageMetadata) }

/-! ## Theorems -/

/-- C1: Gemini conversation translation (src/index.ts lines 659-665): the
`contents` array has one entry per non-system input message, never carries
role "assistant", and its i-th entry is the i-th surviving input message
with "assistant" remapped to "model", every other role to "user", and the
content wrapped in a single part — so order is preserved. -/
theorem gemini_conversation_translation (msgs : List ConversationMessage) :
    (toGeminiContents msgs).length = msgs.countP (fun m => m.role ≠ "system") ∧
    (∀ c ∈ toGeminiContents msgs, c.role ≠ "assistant") ∧
    (∀ i : ℕ, (toGeminiContents msgs).get? i =
      ((msgs.filter (fun m => m.role ≠ "system")).get? i).map
        (fun m =>
          { role := if m.role = "assistant" then "model" else "user"
            parts := [⟨m.content⟩] })) := by
  refine ⟨?_, ?_, ?_⟩
  · simp [toGeminiContents, List.countP_eq_length_filter]
  · intro c hc
    simp only [toGeminiContents, List.mem_map] at hc
    obtain ⟨m, _, rfl⟩ := hc
    by_cases h : m.role = "assistant" <;> simp [h]
  · intro i
    simp [toGeminiContents, List.get?_map]

/-- C3: the CallTool dispatcher (src/index.ts lines 388-412) catches every
handler exception and wraps it as a protocol-successful response with a
single text block reading "Error: " followed by the message; an unknown
operation name takes the same path with a message naming that operation. -/
theorem dispatcher_error_envelope :
    (∀ m r2 r3, dispatch "ask_openrouter_llm" (.thrown m) r2 r3 =
      ⟨[⟨"text", "Error: " ++ m⟩]⟩) ∧
    (∀ m r1 r3, dispatch "ask_gemini_llm" r1 (.thrown m) r3 =
      ⟨[⟨"text", "Error: " ++ m⟩]⟩) ∧
    (∀ m r1 r2, dispatch "conversation_with_llm" r1 r2 (.thrown m) =
      ⟨[⟨"text", "Error: " ++ m⟩]⟩) ∧
    (∀ name r1 r2 r3, name ≠ "ask_openrouter_llm" → name ≠ "ask_gemini_llm" →
      name ≠ "conversation_with_llm" →
      dispatch name r1 r2 r3 =
        ⟨[⟨"text", "Error: " ++ ("Unknown tool: " ++ name)⟩]⟩ ∧
      name.data <:+: ("Error: " ++ ("Unknown tool: " ++ name)).data) := by
  refine ⟨fun m r2 r3 => rfl, fun m r1 r3 => by simp [dispatch, errorEnvelope],
    fun m r1 r2 => by simp [dispatch, errorEnvelope], ?_⟩
  intro name r1 r2 r3 h1 h2 h3
  refine ⟨by simp [dispatch, errorEnvelope, h1, h2, h3], ?_⟩
  exact ⟨("Error: " ++ "Unknown tool: ").data, [], by simp⟩

/-- C3 witness: concrete instances of the caught-exception envelope and of
the unknown-operation path. -/
theorem dispatcher_error_envelope_witness :
    dispatch "ask_openrouter_llm" (.thrown "boom") (.ok ⟨[]⟩) (.ok ⟨[]⟩) =
      ⟨[⟨"text", "Error: boom"⟩]⟩ ∧
    dispatch "frobnicate" (.ok ⟨[]⟩) (.ok ⟨[]⟩) (.ok ⟨[]⟩) =
      ⟨[⟨"text", "Error: Unknown tool: frobnicate"⟩]⟩ :=
  ⟨dispatcher_error_envelope.1 "boom" (.ok ⟨[]⟩) (.ok ⟨[]⟩),
   (dispatcher_error_envelope.2.2.2 "frobnicate" (.ok ⟨[]⟩) (.ok ⟨[]⟩)
     (.ok ⟨[]⟩) (by decide) (by decide) (by decide)).1⟩

/-- C4: with the credential absent, each single-prompt handler returns its
structured error payload early — a `respond`, so no HTTPS request — and the
payload names the missing environment variable and carries the remediation
hint (src/index.ts lines 433-447 and 508-522). -/
theorem missing_credential_early_error (d : McpDefaults)
    (custom : List (String × PresetConfig)) (args : PromptArgs)
    (g o : Option String) :
    handleOpenRouterRequestPre d custom ⟨none, g⟩ args =
      .respond ⟨[⟨"text", openrouterKeyErrText⟩]⟩ ∧
    "OPENROUTER_API_KEY".data <:+: openrouterKeyErrText.data ∧
    "Please set your OpenRouter API key".data <:+: openrouterKeyErrText.data ∧
    handleGeminiRequestPre d custom ⟨o, none⟩ args =
      .respond ⟨[⟨"text", geminiKeyErrText⟩]⟩ ∧
    "GEMINI_API_KEY".data <:+: geminiKeyErrText.data ∧
    "Please set your Gemini API key".data <:+: geminiKeyErrText.data := by
  refine ⟨rfl, by decide, by decide, rfl, by decide, by decide⟩

/-- C5: a conversation call whose provider is neither "openrouter" nor
"gemini" throws the unsupported-provider message before any request is
built (a `throw`, not a `request`), and the dispatcher turns it into an
error result whose text contains the given tag (src/index.ts lines
592-704). -/
theorem conversation_unsupported_provider (d : McpDefaults)
    (custom : List (String × PresetConfig)) (env : Env)
    (args : ConversationArgs) (p : String) (hp : args.provider = some p)
    (h1 : p ≠ "openrouter") (h2 : p ≠ "gemini") :
    handleConversationRequestPre d custom env args =
      .throw ("Unsupported provider: " ++ p) ∧
    (∀ r1 r2, dispatch "conversation_with_llm" r1 r2
        (.thrown ("Unsupported provider: " ++ p)) =
      ⟨[⟨"text", "Error: " ++ ("Unsupported provider: " ++ p)⟩]⟩) ∧
    p.data <:+: ("Error: " ++ ("Unsupported provider: " ++ p)).data := by
  refine ⟨?_, fun r1 r2 => by simp [dispatch, errorEnvelope], ?_⟩
  · simp [handleConversationRequestPre, hp, h1, h2]
  · exact ⟨("Error: " ++ "Unsupported provider: ").data, [], by simp⟩

/-- C5 witness: provider "anthropic" with empty message list and empty
environment. -/
theorem conversation_unsupported_provider_witness :
    handleConversationRequestPre (mkMcpDefaults builtinGeneral) []
      ⟨none, none⟩ ⟨[], some "anthropic", none, none, none, none⟩ =
      .throw ("Unsupported provider: " ++ "anthropic") :=
  (conversation_unsupported_provider (mkMcpDefaults builtinGeneral) []
    ⟨none, none⟩ ⟨[], some "anthropic", none, none, none, none⟩ "anthropic"
    rfl (by decide) (by decide)).1

/-- C6: if the startup-selected preset name is absent from the merged table,
selection falls back to the name "general", only sets the diagnostic
warning flag, and the resulting active preset is exactly the merged table's
"general" entry — which always exists, so the fallback never fails
(src/index.ts lines 195-202). -/
theorem startup_preset_fallback (custom : List (String × PresetConfig))
    (requested : String) (h : mergedLookup custom requested = none) :
    (selectStartupPreset custom requested).selectedPreset = "general" ∧
    (selectStartupPreset custom requested).warned = true ∧
    mergedLookup custom "general" =
      some (selectStartupPreset custom requested).activePreset := by
  refine ⟨by simp [selectStartupPreset, h], by simp [selectStartupPreset, h], ?_⟩
  simp only [selectStartupPreset, h]
  cases hgen : custom.lookup "general" <;>
    simp [mergedLookup, hgen, builtInPresets, builtinGeneral]

/-- C6 witness: the unknown startup name "speedy" with no custom presets. -/
theorem startup_preset_fallback_witness :
    (selectStartupPreset [] "speedy").selectedPreset = "general" ∧
    (selectStartupPreset [] "speedy").warned = true ∧
    mergedLookup [] "general" =
      some (selectStartupPreset [] "speedy").activePreset :=
  startup_preset_fallback [] "speedy" rfl

/-- C7: in both Gemini paths, an upstream payload with usage metadata
absent — the whole `usageMetadata` object or each of its fields —
normalizes to a usage record of three zeros, never left undefined
(src/index.ts lines 553-562 and 683-692). -/
theorem gemini_usage_zero_default (model text : String) (d : McpDefaults)
    (marg : Option String) :
    (handleGeminiRequestParse model ⟨text, none⟩).usage = some ⟨0, 0, 0⟩ ∧
    (handleGeminiRequestParse model ⟨text, some ⟨none, none, none⟩⟩).usage =
      some ⟨0, 0, 0⟩ ∧
    (handleConversationGeminiParse d marg ⟨text, none⟩).usage =
      some ⟨0, 0, 0⟩ ∧
    (handleConversationGeminiParse d marg ⟨text, some ⟨none, none, none⟩⟩).usage =
      some ⟨0, 0, 0⟩ :=
  ⟨rfl, rfl, rfl, rfl⟩

/-- C8: `ask_openrouter_llm(\x7bprompt:"hi"\x7d)` under the default startup
preset (the built-in "general") and a present credential resolves
max_tokens to 8192 and temperature to 0.7 and sends the one-element
message list `[\x7brole:"user", content:"hi"\x7d]`
(src/index.ts lines 144-159, 415-423, 449-453). -/
theorem ask_openrouter_default_resolution (key : String) (hk : key ≠ "")
    (g : Option String) :
    handleOpenRouterRequestPre
      (mkMcpDefaults (selectStartupPreset [] "general").activePreset) []
      ⟨some key, g⟩ ⟨"hi", none, none, none, none, none⟩ =
    .request
      ⟨"deepseek/deepseek-chat-v3.1:free", [⟨"user", "hi"⟩], 8192, 7/10⟩ := by
  simp [handleOpenRouterRequestPre, selectStartupPreset, mergedLookup,
    builtInPresets, mkMcpDefaults, applyPreset, jsTruthyStr, hk]

/-- C8 witness: a concrete credential string. -/
theorem ask_openrouter_default_resolution_witness :
    handleOpenRouterRequestPre
      (mkMcpDefaults (selectStartupPreset [] "general").activePreset) []
      ⟨some "sk-or-key", none⟩ ⟨"hi", none, none, none, none, none⟩ =
    .request
      ⟨"deepseek/deepseek-chat-v3.1:free", [⟨"user", "hi"⟩], 8192, 7/10⟩ :=
  ask_openrouter_default_resolution "sk-or-key" (by decide) none

/-- C9: a conversation call routed to OpenRouter with the credential present
places the caller's message sequence in the wire body unchanged — the same
list, system turns included, at any position (src/index.ts lines 609-625). -/
theorem conversation_openrouter_identity (d : McpDefaults)
    (custom : List (String × PresetConfig)) (key : String) (hk : key ≠ "")
    (g : Option String) (args : ConversationArgs)
    (hp : args.provider = some "openrouter") :
    ∃ b : OpenRouterBody,
      handleConversationRequestPre d custom ⟨some key, g⟩ args =
        .request (.openrouter b) ∧
      b.messages = args.messages := by
  exact ⟨⟨jsOrStr args.model d.openrouterModel, args.messages,
      (applyPreset custom args.preset (args.max_tokens.getD d.max_tokens)
        (args.temperature.getD d.temperature)).max_tokens,
      (applyPreset custom args.preset (args.max_tokens.getD d.max_tokens)
        (args.temperature.getD d.temperature)).temperature⟩,
    by simp [handleConversationRequestPre, hp, jsTruthyStr, hk], rfl⟩

/-- C9 witness: a three-turn history with an interleaved system message
survives verbatim. -/
theorem conversation_openrouter_identity_witness :
    ∃ b : OpenRouterBody,
      handleConversationRequestPre (mkMcpDefaults builtinGeneral) []
        ⟨some "sk-or-key", none⟩
        ⟨[⟨"user", "hi"⟩, ⟨"system", "be terse"⟩, ⟨"assistant", "ok"⟩],
         some "openrouter", none, none, none, none⟩ =
        .request (.openrouter b) ∧
      b.messages = [⟨"user", "hi"⟩, ⟨"system", "be terse"⟩, ⟨"assistant", "ok"⟩] :=
  conversation_openrouter_identity (mkMcpDefaults builtinGeneral) []
    "sk-or-key" (by decide) none
    ⟨[⟨"user", "hi"⟩, ⟨"system", "be terse"⟩, ⟨"assistant", "ok"⟩],
     some "openrouter", none, none, none, none⟩ rfl

/-- C10: a preset name absent from the merged table is silently ignored in
every handler: resolution yields the caller's explicit (or default) values,
and each handler behaves exactly as if no preset had been passed — no
"general" fallback, no error, no warning (src/index.ts lines 425-431,
500-506, 584-590). -/
theorem call_level_unknown_preset_ignored
    (custom : List (String × PresetConfig)) (p : String)
    (hp : mergedLookup custom p = none) :
    (∀ mt t : ℚ, applyPreset custom (some p) mt t = ⟨mt, t⟩) ∧
    (∀ (d : McpDefaults) (env : Env) (args : PromptArgs),
      args.preset = some p →
      handleOpenRouterRequestPre d custom env args =
        handleOpenRouterRequestPre d custom env { args with preset := none } ∧
      handleGeminiRequestPre d custom env args =
        handleGeminiRequestPre d custom env { args with preset := none }) ∧
    (∀ (d : McpDefaults) (env : Env) (args : ConversationArgs),
      args.preset = some p →
      handleConversationRequestPre d custom env args =
        handleConversationRequestPre d custom env
          { args with preset := none }) := by
  have key : ∀ mt t : ℚ, applyPreset custom (some p) mt t = ⟨mt, t⟩ := by
    intro mt t
    simp [applyPreset, hp]
  have keyNone : ∀ mt t : ℚ, applyPreset custom none mt t = ⟨mt, t⟩ :=
    fun _ _ => rfl
  refine ⟨key, ?_, ?_⟩
  · intro d env args hpre
    constructor <;>
      simp [handleOpenRouterRequestPre, handleGeminiRequestPre, hpre, key,
        keyNone]
  · intro d env args hpre
    simp [handleConversationRequestPre, hpre, key, keyNone]

/-- C10 witness: preset "speedy" absent from the built-in-only table, with
explicit numerics 55/2 on each of the three handlers. -/
theorem call_level_unknown_preset_ignored_witness :
    applyPreset [] (some "speedy") 55 2 = ⟨55, 2⟩ ∧
    handleOpenRouterRequestPre (mkMcpDefaults builtinGeneral) []
      ⟨some "k", some "k"⟩ ⟨"hi", none, some 55, some 2, none, some "speedy"⟩ =
    handleOpenRouterRequestPre (mkMcpDefaults builtinGeneral) []
      ⟨some "k", some "k"⟩ ⟨"hi", none, some 55, some 2, none, none⟩ := by
  have h := call_level_unknown_preset_ignored [] "speedy" rfl
  exact ⟨h.1 55 2,
    (h.2.1 (mkMcpDefaults builtinGeneral) ⟨some "k", some "k"⟩
      ⟨"hi", none, some 55, some 2, none, some "speedy"⟩ rfl).1⟩

/-- A custom preset keyed by the empty string, as an `mcp-config.json` with
`"presets": \x7b"": ...\x7d` produces in the merged table. -/
def emptyNamePreset : PresetConfig :=
  { provider := "openrouter"
    model := "m"
    max_tokens := 100
    temperature := 2
    description := "custom" }

/-- C2 counterexample: the preset named "" is present in the merged table
with nonzero numeric fields, yet a call passing it together with explicit
max_tokens 200 and temperature 3 resolves to the explicit values, not the
preset's — the guard `if (preset && allPresets[preset])` (src/index.ts line
428) tests the name's truthiness, and "" is falsy. -/
theorem preset_override_counterexample :
    mergedLookup [("", emptyNamePreset)] "" = some emptyNamePreset ∧
    emptyNamePreset.max_tokens ≠ 0 ∧
    emptyNamePreset.temperature ≠ 0 ∧
    applyPreset [("", emptyNamePreset)] (some "") 200 3 = ⟨200, 3⟩ ∧
    ¬(applyPreset [("", emptyNamePreset)] (some "") 200 3 =
      ⟨emptyNamePreset.max_tokens, emptyNamePreset.temperature⟩) ∧
    handleOpenRouterRequestPre (mkMcpDefaults builtinGeneral)
      [("", emptyNamePreset)] ⟨some "k", none⟩
      ⟨"hi", none, some 200, some 3, none, some ""⟩ =
      .request ⟨"deepseek/deepseek-chat-v3.1:free", [⟨"user", "hi"⟩], 200, 3⟩ :=
  ⟨rfl, by decide, by decide, rfl, by decide, rfl⟩

/-- C2 amended: for a preset name that is nonempty (JS-truthy) and present
in the merged table, the preset's numeric fields override the caller's
explicit max_tokens and temperature, each field individually falling back
to the caller's value when the preset's value for it is zero
(src/index.ts lines 425-431, 500-506, 584-590). -/
theorem preset_override_amended (custom : List (String × PresetConfig))
    (p : String) (cfg : PresetConfig) (hp : p ≠ "")
    (hl : mergedLookup custom p = some cfg) (mt t : ℚ) :
    (cfg.max_tokens ≠ 0 →
      (applyPreset custom (some p) mt t).max_tokens = cfg.max_tokens) ∧
    (cfg.max_tokens = 0 →
      (applyPreset custom (some p) mt t).max_tokens = mt) ∧
    (cfg.temperature ≠ 0 →
      (applyPreset custom (some p) mt t).temperature = cfg.temperature) ∧
    (cfg.temperature = 0 →
      (applyPreset custom (some p) mt t).temperature = t) := by
  have hval : applyPreset custom (some p) mt t =
      ⟨if cfg.max_tokens ≠ 0 then cfg.max_tokens else mt,
       if cfg.temperature ≠ 0 then cfg.temperature else t⟩ := by
    simp [applyPreset, hp, hl]
  rw [hval]
  exact ⟨fun h => by simp [h], fun h => by simp [h], fun h => by simp [h],
    fun h => by simp [h]⟩

/-- A custom preset with a nonzero max_tokens and a zero temperature, used
to exercise both the override and the field-level fallback. -/
def fastPreset : PresetConfig :=
  { provider := "openrouter"
    model := "m"
    max_tokens := 100
    temperature := 0
    description := "fast" }

/-- C2 amended witness: preset "fast" overrides the explicit max_tokens and
its zero temperature falls back to the explicit temperature. -/
theorem preset_override_amended_witness :
    (applyPreset [("fast", fastPreset)] (some "fast") 200 3).max_tokens = 100 ∧
    (applyPreset [("fast", fastPreset)] (some "fast") 200 3).temperature = 3 := by
  have h := preset_override_amended [("fast", fastPreset)] "fast" fastPreset
    (by decide) rfl 200 3
  exact ⟨h.1 (by decide), h.2.2.2 rfl⟩

end LLMBridge
